import Mathlib

/-!
Verification of the ciswap liquidity-modification core and the hello_anchor
instruction, as a shallow embedding of
`demo/ciswap/programs/ciswap/src/instructions/create-pair.rs`,
`demo/ciswap/programs/ciswap/src/lib.rs` and
`solana/ciswap/programs/ciswap/src/instructions/hello_anchor.rs`.

The handler bodies are translated from the Rust source.  The helper
functions the handler calls (`calculate_modify_liquidity`,
`sync_modify_liquidity_values`, `update_tick_array_accounts`,
`calculate_liquidity_token_deltas`, `convert_to_liquidity_delta`,
`to_timestamp_u64`, `verify_position_authority_interface`,
`transfer_from_owner_to_vault`) live in crates that are not part of the
source fragment; each of those is modelled from the specification text and
marked as such in its doc comment.
-/

/-- Error kinds of the program.  `LiquidityZero`, `TokenMaxExceeded` and
`EmptyHelloAnchorMessage` are the variants the source handlers name
explicitly (`ErrorCode::LiquidityZero`, `ErrorCode::TokenMaxExceeded`,
`ErrorCode::EmptyHelloAnchorMessage`).  The remaining variants are modelled
from the error taxonomy of the specification: `InvalidInput`,
`LiquidityUnderflow`, `ArithmeticOverflow`, `StorageResizeFailed`,
`StaleTickArrayState`, `SlippageExceeded`, `TransferFailed`.
`SlippageExceeded` and `TokenMaxExceeded` are distinct kinds, as are
`InvalidInput` and `LiquidityZero`. -/
inductive ErrorCode where
  | InvalidPositionAuthority
  | LiquidityZero
  | InvalidInput
  | InvalidTimestamp
  | LiquidityUnderflow
  | ArithmeticOverflow
  | StorageResizeFailed
  | StaleTickArrayState
  | TokenMaxExceeded
  | SlippageExceeded
  | TransferFailed
  | EmptyHelloAnchorMessage
  deriving DecidableEq, Repr

/-- One tick record: signed net liquidity contribution, nonnegative gross
liquidity, and per-asset fee-growth-outside accumulators (data model of the
spec; the u128 gross field is a `Nat`, the i128 net field an `Int`). -/
structure Tick where
  liquidity_net : Int
  liquidity_gross : Nat
  fee_growth_outside_a : Nat
  fee_growth_outside_b : Nat
  deriving DecidableEq, Repr

/-- The pool (the `whirlpool` account of the source): sqrt price as an exact
rational, current tick index, aggregate in-range liquidity, global fee-growth
accumulators. -/
structure Pool where
  sqrt_price : ℚ
  tick_current_index : Int
  liquidity : Nat
  fee_growth_global_a : Nat
  fee_growth_global_b : Nat
  deriving DecidableEq, Repr

/-- A position: tick bounds, deposited liquidity, fee-growth checkpoints. -/
structure Position where
  tick_lower_index : Int
  tick_upper_index : Int
  liquidity : Nat
  fee_growth_checkpoint_a : Nat
  fee_growth_checkpoint_b : Nat
  deriving DecidableEq, Repr

/-- A tick array: a growable window of initialized tick slots keyed by tick
index, with a capacity that may grow but never shrinks. -/
structure TickArray where
  start_tick_index : Int
  capacity : Nat
  ticks : List (Int × Tick)
  deriving DecidableEq, Repr

/-- The Liquidity Update Descriptor produced by the read pass: the new
position and pool liquidity values, the fee-growth checkpoints to install,
and the new contents of the two boundary tick slots (the
`tick_array_lower_update` / `tick_array_upper_update` fields the handler
passes around). -/
structure ModifyLiquidityUpdate where
  position_liquidity : Nat
  pool_liquidity : Nat
  fee_growth_checkpoint_a : Nat
  fee_growth_checkpoint_b : Nat
  tick_array_lower_update : Tick
  tick_array_upper_update : Tick
  deriving DecidableEq, Repr

/-- The account state an instruction call can read and mutate: the pool, the
position, the two boundary tick arrays, the position-authority check result,
the four token balances touched by settlement, and the clock. -/
structure ProgramState where
  pool : Pool
  position : Position
  tick_array_lower : TickArray
  tick_array_upper : TickArray
  position_authority_valid : Bool
  owner_balance_a : Nat
  owner_balance_b : Nat
  vault_balance_a : Nat
  vault_balance_b : Nat
  unix_timestamp : Int
  deriving DecidableEq, Repr

/-- Upper bound of the u128 liquidity range. -/
def u128Limit : Nat := 2 ^ 128

/-- Upper bound of the u64 token-amount range. -/
def u64Limit : Nat := 2 ^ 64

/-- Checked signed adjustment of an unsigned 128-bit liquidity value:
underflow is `LiquidityUnderflow`, overflow is `ArithmeticOverflow`
(spec section 7 taxonomy; all arithmetic is checked). -/
def addLiquidityDelta (x : Nat) (d : Int) : Except ErrorCode Nat :=
  if (x : Int) + d < 0 then .error .LiquidityUnderflow
  else if (u128Limit : Int) ≤ (x : Int) + d then .error .ArithmeticOverflow
  else .ok ((x : Int) + d).toNat

/-- Modelled from the spec: the Liquidity Delta Calculator
(`convert_to_liquidity_delta`, body absent from the source fragment)
converts an unsigned amount and a direction flag into a signed delta and
rejects a zero amount with `InvalidInput`. -/
def convert_to_liquidity_delta (liquidity_amount : Nat) (is_increase : Bool) :
    Except ErrorCode Int :=
  if liquidity_amount = 0 then .error .InvalidInput
  else .ok (if is_increase then (liquidity_amount : Int) else -(liquidity_amount : Int))

/-- Modelled from the spec: the position-authority verification
(`verify_position_authority_interface`, body absent from the source
fragment) is an authorization gate that either passes or fails with a typed
error and has no other effect. -/
def verify_position_authority_interface (authorized : Bool) : Except ErrorCode Unit :=
  if authorized then .ok () else .error .InvalidPositionAuthority

/-- Modelled from the spec: `to_timestamp_u64` (body absent from the source
fragment) converts the signed clock value to an unsigned timestamp, failing
on a negative clock. -/
def to_timestamp_u64 (t : Int) : Except ErrorCode Nat :=
  if t < 0 then .error .InvalidTimestamp else .ok t.toNat

/-- Reading an uninitialized tick slot yields the zeroed tick record. -/
def emptyTick : Tick :=
  { liquidity_net := 0, liquidity_gross := 0
  , fee_growth_outside_a := 0, fee_growth_outside_b := 0 }

/-- Read the tick record stored for index `i`, the zero record if the slot
is uninitialized. -/
def getTick (a : TickArray) (i : Int) : Tick :=
  match a.ticks.find? (fun p => p.1 == i) with
  | some p => p.2
  | none => emptyTick

/-- Write the tick record for index `i`, growing the occupied-slot
bookkeeping if the slot was not initialized; capacity never shrinks. -/
def setTick (a : TickArray) (i : Int) (t : Tick) : TickArray :=
  { a with
    ticks := (i, t) :: a.ticks.filter (fun p => p.1 != i)
  , capacity := max a.capacity ((a.ticks.filter (fun p => p.1 != i)).length + 1) }

/-- The current tick of the pool lies in the half-open range
[lower, upper) of the position. -/
def in_range (pool : Pool) (position : Position) : Prop :=
  position.tick_lower_index ≤ pool.tick_current_index ∧
    pool.tick_current_index < position.tick_upper_index

instance (pool : Pool) (position : Position) : Decidable (in_range pool position) := by
  unfold in_range; infer_instance

/-- Modelled from the spec: the Modify-Liquidity Engine read pass
(`calculate_modify_liquidity`, body absent from the source fragment).
Position liquidity is adjusted by the delta and must never go negative
(`LiquidityUnderflow` otherwise); gross liquidity at each boundary tick is
adjusted by the delta magnitude in the direction of the delta (increased on
deposit, decreased on withdrawal, so that the round-trip property of the
spec holds); net liquidity gets `+delta` at the lower boundary and `-delta`
at the upper boundary; the pool aggregate liquidity is adjusted by the delta
exactly when the current tick is inside [lower, upper); the fee-growth
checkpoints are advanced to the current global accumulators.  No storage is
mutated: the result is a pure update descriptor. -/
def calculate_modify_liquidity (pool : Pool) (position : Position)
    (lower_tick_array upper_tick_array : TickArray)
    (liquidity_delta : Int) (_timestamp : Nat) :
    Except ErrorCode ModifyLiquidityUpdate :=
  let lowerTick := getTick lower_tick_array position.tick_lower_index
  let upperTick := getTick upper_tick_array position.tick_upper_index
  match addLiquidityDelta position.liquidity liquidity_delta with
  | .error e => .error e
  | .ok newPositionLiquidity =>
    match addLiquidityDelta lowerTick.liquidity_gross liquidity_delta with
    | .error e => .error e
    | .ok newLowerGross =>
      match addLiquidityDelta upperTick.liquidity_gross liquidity_delta with
      | .error e => .error e
      | .ok newUpperGross =>
        match (if in_range pool position
               then addLiquidityDelta pool.liquidity liquidity_delta
               else .ok pool.liquidity) with
        | .error e => .error e
        | .ok newPoolLiquidity =>
          .ok { position_liquidity := newPositionLiquidity
              , pool_liquidity := newPoolLiquidity
              , fee_growth_checkpoint_a := pool.fee_growth_global_a
              , fee_growth_checkpoint_b := pool.fee_growth_global_b
              , tick_array_lower_update :=
                  { lowerTick with
                    liquidity_net := lowerTick.liquidity_net + liquidity_delta
                  , liquidity_gross := newLowerGross }
              , tick_array_upper_update :=
                  { upperTick with
                    liquidity_net := upperTick.liquidity_net - liquidity_delta
                  , liquidity_gross := newUpperGross } }

/-- Modelled from the spec: the Tick Array Storage Updater
(`update_tick_array_accounts`, body absent from the source fragment)
ensures both boundary slots exist, growing the occupied-slot bookkeeping as
needed, and materializes the descriptor tick values into the slots.  The
spec gives no capacity bound, so growth always succeeds in the model. -/
def update_tick_array_accounts (position : Position)
    (lower_tick_array upper_tick_array : TickArray)
    (tick_array_lower_update tick_array_upper_update : Tick) :
    Except ErrorCode (TickArray × TickArray) :=
  .ok (setTick lower_tick_array position.tick_lower_index tick_array_lower_update,
       setTick upper_tick_array position.tick_upper_index tick_array_upper_update)

/-- Modelled from the spec: the Sync Engine write pass
(`sync_modify_liquidity_values`, body absent from the source fragment)
checks that the post-resize tick contents agree with the projection
(`StaleTickArrayState` otherwise) and then installs the computed pool and
position mutations. -/
def sync_modify_liquidity_values (pool : Pool) (position : Position)
    (lower_tick_array upper_tick_array : TickArray)
    (update : ModifyLiquidityUpdate) (_timestamp : Nat) :
    Except ErrorCode (Pool × Position) :=
  if getTick lower_tick_array position.tick_lower_index ≠ update.tick_array_lower_update
      ∨ getTick upper_tick_array position.tick_upper_index ≠ update.tick_array_upper_update
  then .error .StaleTickArrayState
  else .ok ({ pool with liquidity := update.pool_liquidity },
            { position with
              liquidity := update.position_liquidity
            , fee_growth_checkpoint_a := update.fee_growth_checkpoint_a
            , fee_growth_checkpoint_b := update.fee_growth_checkpoint_b })

/-- The three-stage liquidity mutation the handler performs at source lines
58 to 92: read pass, storage resize and materialization, then the write pass
over the re-obtained arrays. -/
def modifyCore (pool : Pool) (position : Position)
    (lower_tick_array upper_tick_array : TickArray)
    (liquidity_delta : Int) (timestamp : Nat) :
    Except ErrorCode (Pool × Position × TickArray × TickArray) :=
  match calculate_modify_liquidity pool position lower_tick_array upper_tick_array
      liquidity_delta timestamp with
  | .error e => .error e
  | .ok update =>
    match update_tick_array_accounts position lower_tick_array upper_tick_array
        update.tick_array_lower_update update.tick_array_upper_update with
    | .error e => .error e
    | .ok (l2, u2) =>
      match sync_modify_liquidity_values pool position l2 u2 update timestamp with
      | .error e => .error e
      | .ok (pool2, position2) => .ok (pool2, position2, l2, u2)

/-- Modelled from the spec: the fixed-point tick-math library mapping a tick
index to its sqrt price is outside the fragment and the spec leaves its
representation abstract (section 9), requiring only a positive, strictly
monotone price per discretized bucket; the model fixes the exact rational
stand-in `2 ^ i`. -/
def sqrtPriceAtTick : Int → ℚ
  | .ofNat n => (2 : ℚ) ^ n
  | .negSucc n => 1 / (2 : ℚ) ^ (n + 1)

/-- Executable floor of a rational, used by the token amount calculator. -/
def ratFloor (q : ℚ) : Int := q.floor

/-- Executable ceiling of a rational, used by the token amount calculator. -/
def ratCeil (q : ℚ) : Int := -(Rat.floor (-q))

/-- Modelled from the spec: the exact rational amount of asset A required by
the curve for magnitude `l` of liquidity (section 4.5): below range the
amount is carried entirely in asset A between the two bound prices, inside
the range between the current price and the upper bound, above range zero. -/
def exactAmountA (tick_current_index : Int) (sqrt_price : ℚ)
    (position : Position) (l : ℚ) : ℚ :=
  let sL := sqrtPriceAtTick position.tick_lower_index
  let sU := sqrtPriceAtTick position.tick_upper_index
  if tick_current_index < position.tick_lower_index then l * (sU - sL) / (sL * sU)
  else if tick_current_index < position.tick_upper_index then
    l * (sU - sqrt_price) / (sqrt_price * sU)
  else 0

/-- Modelled from the spec: the exact rational amount of asset B required by
the curve for magnitude `l` of liquidity (section 4.5): below range zero,
inside the range between the lower bound and the current price, above range
entirely in asset B between the two bound prices. -/
def exactAmountB (tick_current_index : Int) (sqrt_price : ℚ)
    (position : Position) (l : ℚ) : ℚ :=
  let sL := sqrtPriceAtTick position.tick_lower_index
  let sU := sqrtPriceAtTick position.tick_upper_index
  if tick_current_index < position.tick_lower_index then 0
  else if tick_current_index < position.tick_upper_index then l * (sqrt_price - sL)
  else l * (sU - sL)

/-- Checked conversion of a rounded token amount into the u64 range
(`ArithmeticOverflow` outside it, per the checked-arithmetic policy of
spec section 4.5). -/
def toU64 (x : Int) : Except ErrorCode Nat :=
  if x < 0 then .error .ArithmeticOverflow
  else if (u64Limit : Int) ≤ x then .error .ArithmeticOverflow
  else .ok x.toNat

/-- Modelled from the spec: the Token Amount Calculator
(`calculate_liquidity_token_deltas`, body absent from the source fragment)
derives both token amounts from the curve, rounding both up for a deposit
(positive delta) and both down for a withdrawal (negative delta). -/
def calculate_liquidity_token_deltas (tick_current_index : Int) (sqrt_price : ℚ)
    (position : Position) (liquidity_delta : Int) :
    Except ErrorCode (Nat × Nat) :=
  let l : ℚ := (liquidity_delta.natAbs : ℚ)
  let qa := exactAmountA tick_current_index sqrt_price position l
  let qb := exactAmountB tick_current_index sqrt_price position l
  let ra := if 0 < liquidity_delta then ratCeil qa else ratFloor qa
  let rb := if 0 < liquidity_delta then ratCeil qb else ratFloor qb
  match toU64 ra with
  | .error e => .error e
  | .ok a =>
    match toU64 rb with
    | .error e => .error e
    | .ok b => .ok (a, b)

/-- Modelled from the spec: the value-transfer primitive
(`transfer_from_owner_to_vault`, body absent from the source fragment)
atomically moves `amount` from the owner holding balance to the vault
balance and fails on an insufficient source balance. -/
def transfer_from_owner_to_vault (owner_balance vault_balance amount : Nat) :
    Except ErrorCode (Nat × Nat) :=
  if owner_balance < amount then .error .TransferFailed
  else .ok (owner_balance - amount, vault_balance + amount)

/-- The liquidity-modification handler, translated from
`create-pair.rs` lines 32 to 134: authority check, clock read, zero-amount
check, delta conversion, timestamp conversion, tick array load, read pass,
drop and resize, reload, write pass, token amount derivation, slippage
check, the two transfers.  The direction flag passed to
`convert_to_liquidity_delta` is the literal `true` of source line 48, and
the argument list carries no direction flag. -/
def handler (s : ProgramState) (liquidity_amount : Nat)
    (token_max_a token_max_b : Nat) : Except ErrorCode ProgramState :=
  match verify_position_authority_interface s.position_authority_valid with
  | .error e => .error e
  | .ok _ =>
    if liquidity_amount = 0 then .error .LiquidityZero
    else
      match convert_to_liquidity_delta liquidity_amount true with
      | .error e => .error e
      | .ok liquidity_delta =>
        match to_timestamp_u64 s.unix_timestamp with
        | .error e => .error e
        | .ok timestamp =>
          match calculate_modify_liquidity s.pool s.position
              s.tick_array_lower s.tick_array_upper liquidity_delta timestamp with
          | .error e => .error e
          | .ok update =>
            match update_tick_array_accounts s.position
                s.tick_array_lower s.tick_array_upper
                update.tick_array_lower_update update.tick_array_upper_update with
            | .error e => .error e
            | .ok (l2, u2) =>
              match sync_modify_liquidity_values s.pool s.position l2 u2
                  update timestamp with
              | .error e => .error e
              | .ok (pool2, position2) =>
                match calculate_liquidity_token_deltas pool2.tick_current_index
                    pool2.sqrt_price position2 liquidity_delta with
                | .error e => .error e
                | .ok (delta_a, delta_b) =>
                  if token_max_a < delta_a ∨ token_max_b < delta_b then
                    .error .TokenMaxExceeded
                  else
                    match transfer_from_owner_to_vault s.owner_balance_a
                        s.vault_balance_a delta_a with
                    | .error e => .error e
                    | .ok (oa, va) =>
                      match transfer_from_owner_to_vault s.owner_balance_b
                          s.vault_balance_b delta_b with
                      | .error e => .error e
                      | .ok (ob, vb) =>
                        .ok { s with
                              pool := pool2
                            , position := position2
                            , tick_array_lower := l2
                            , tick_array_upper := u2
                            , owner_balance_a := oa
                            , vault_balance_a := va
                            , owner_balance_b := ob
                            , vault_balance_b := vb }

/-- The read pass of the handler: everything up to and including
`calculate_modify_liquidity`, before any storage resize.  Returns the signed
delta, the timestamp and the update descriptor. -/
def readPass (s : ProgramState) (liquidity_amount : Nat) :
    Except ErrorCode (Int × Nat × ModifyLiquidityUpdate) :=
  match verify_position_authority_interface s.position_authority_valid with
  | .error e => .error e
  | .ok _ =>
    if liquidity_amount = 0 then .error .LiquidityZero
    else
      match convert_to_liquidity_delta liquidity_amount true with
      | .error e => .error e
      | .ok liquidity_delta =>
        match to_timestamp_u64 s.unix_timestamp with
        | .error e => .error e
        | .ok timestamp =>
          match calculate_modify_liquidity s.pool s.position
              s.tick_array_lower s.tick_array_upper liquidity_delta timestamp with
          | .error e => .error e
          | .ok update => .ok (liquidity_delta, timestamp, update)

/-- The write pass and settlement of the handler, from
`sync_modify_liquidity_values` on.  Its only tick-array inputs are the two
arrays `l2` and `u2`: the pre-resize arrays are not in scope of this
function at all, so nothing obtained before the resize can be used here. -/
def writePass (pool : Pool) (position : Position) (l2 u2 : TickArray)
    (update : ModifyLiquidityUpdate) (timestamp : Nat) (liquidity_delta : Int)
    (token_max_a token_max_b : Nat)
    (owner_a vault_a owner_b vault_b : Nat) :
    Except ErrorCode (Pool × Position × TickArray × TickArray × Nat × Nat × Nat × Nat) :=
  match sync_modify_liquidity_values pool position l2 u2 update timestamp with
  | .error e => .error e
  | .ok (pool2, position2) =>
    match calculate_liquidity_token_deltas pool2.tick_current_index
        pool2.sqrt_price position2 liquidity_delta with
    | .error e => .error e
    | .ok (delta_a, delta_b) =>
      if token_max_a < delta_a ∨ token_max_b < delta_b then
        .error .TokenMaxExceeded
      else
        match transfer_from_owner_to_vault owner_a vault_a delta_a with
        | .error e => .error e
        | .ok (oa, va) =>
          match transfer_from_owner_to_vault owner_b vault_b delta_b with
          | .error e => .error e
          | .ok (ob, vb) => .ok (pool2, position2, l2, u2, oa, va, ob, vb)

/-- The handler re-expressed as read pass, then resize, then the write pass
applied to the freshly re-obtained arrays. -/
def stagedHandler (s : ProgramState) (liquidity_amount : Nat)
    (token_max_a token_max_b : Nat) : Except ErrorCode ProgramState :=
  match readPass s liquidity_amount with
  | .error e => .error e
  | .ok (liquidity_delta, timestamp, update) =>
    match update_tick_array_accounts s.position
        s.tick_array_lower s.tick_array_upper
        update.tick_array_lower_update update.tick_array_upper_update with
    | .error e => .error e
    | .ok (l2, u2) =>
      match writePass s.pool s.position l2 u2 update timestamp liquidity_delta
          token_max_a token_max_b
          s.owner_balance_a s.vault_balance_a s.owner_balance_b s.vault_balance_b with
      | .error e => .error e
      | .ok (pool2, position2, l2b, u2b, oa, va, ob, vb) =>
        .ok { s with
              pool := pool2
            , position := position2
            , tick_array_lower := l2b
            , tick_array_upper := u2b
            , owner_balance_a := oa
            , vault_balance_a := va
            , owner_balance_b := ob
            , vault_balance_b := vb }

/-- Rust whitespace predicate of `char::is_whitespace`: the Unicode
White_Space set. -/
def isRustWhitespace (c : Char) : Bool :=
  c = '\x20' ∨ c = '\t' ∨ c = '\n' ∨ c = '\x0b' ∨ c = '\x0c' ∨ c = '\r' ∨
    c = '\u0085' ∨ c = '\u00A0' ∨ c = '\u1680' ∨
    ('\u2000' ≤ c ∧ c ≤ '\u200A') ∨
    c = '\u2028' ∨ c = '\u2029' ∨ c = '\u202F' ∨ c = '\u205F' ∨ c = '\u3000'

/-- Rust `str::trim`: drop leading and trailing whitespace characters. -/
def rustTrim (msg : String) : List Char :=
  ((msg.toList.dropWhile isRustWhitespace).reverse.dropWhile isRustWhitespace).reverse

/-- The greeting account written by the hello_anchor instruction. -/
structure HelloAnchor where
  authority : Nat
  message : String
  timestamp : Int
  deriving DecidableEq, Repr

/-- The event emitted by the hello_anchor instruction. -/
structure AnchorHelloEvent where
  user : Nat
  message : String
  timestamp : Int
  deriving DecidableEq, Repr

/-- The hello_anchor handler, translated from `hello_anchor.rs` lines 35 to
58: reject a message that is empty after trimming, otherwise write the
greeting account fields and emit the event.  A successful call yields the
written account and the emitted event; a failing call yields neither. -/
def hello_anchor_handler (signer_key : Nat) (message : String) (timestamp : Int) :
    Except ErrorCode (HelloAnchor × AnchorHelloEvent) :=
  if (rustTrim message).isEmpty then .error .EmptyHelloAnchorMessage
  else .ok ({ authority := signer_key, message := message, timestamp := timestamp },
            { user := signer_key, message := message, timestamp := timestamp })

theorem addLiquidityDelta_ok_val {x : Nat} {d : Int} {n : Nat}
    (h : addLiquidityDelta x d = .ok n) : (n : Int) = (x : Int) + d := by
  unfold addLiquidityDelta at h
  split at h
  · exact absurd h (by simp)
  · split at h
    · exact absurd h (by simp)
    · simp only [Except.ok.injEq] at h
      subst h
      omega

theorem addLiquidityDelta_ok_bounds {x : Nat} {d : Int} {n : Nat}
    (h : addLiquidityDelta x d = .ok n) :
    0 ≤ (x : Int) + d ∧ (x : Int) + d < (u128Limit : Int) := by
  unfold addLiquidityDelta at h
  split at h
  · exact absurd h (by simp)
  · split at h
    · exact absurd h (by simp)
    · omega

theorem addLiquidityDelta_ok_of {x : Nat} {d : Int}
    (h0 : 0 ≤ (x : Int) + d) (h1 : (x : Int) + d < (u128Limit : Int)) :
    addLiquidityDelta x d = .ok ((x : Int) + d).toNat := by
  unfold addLiquidityDelta
  rw [if_neg (by omega), if_neg (by omega)]

theorem addLiquidityDelta_underflow {x : Nat} {d : Int}
    (h : (x : Int) + d < 0) : addLiquidityDelta x d = .error .LiquidityUnderflow := by
  unfold addLiquidityDelta
  rw [if_pos h]

theorem getTick_setTick_same (a : TickArray) (i : Int) (t : Tick) :
    getTick (setTick a i t) i = t := by
  simp [getTick, setTick, List.find?]

theorem ratFloor_eq (q : ℚ) : ratFloor q = ⌊q⌋ := by
  show Rat.floor q = ⌊q⌋
  rw [Rat.floor_def', Rat.floor_def]

theorem ratCeil_eq (q : ℚ) : ratCeil q = ⌈q⌉ := by
  show -(Rat.floor (-q)) = ⌈q⌉
  have h : Rat.floor (-q) = ⌊-q⌋ := by rw [Rat.floor_def', Rat.floor_def]
  rw [h, ← Int.ceil_neg, neg_neg]

theorem convert_to_liquidity_delta_true {liquidity_amount : Nat}
    (h : liquidity_amount ≠ 0) :
    convert_to_liquidity_delta liquidity_amount true = .ok (liquidity_amount : Int) := by
  unfold convert_to_liquidity_delta
  rw [if_neg h]
  rfl

theorem convert_to_liquidity_delta_false {liquidity_amount : Nat}
    (h : liquidity_amount ≠ 0) :
    convert_to_liquidity_delta liquidity_amount false = .ok (-(liquidity_amount : Int)) := by
  unfold convert_to_liquidity_delta
  rw [if_neg h]
  rfl

theorem calculate_modify_liquidity_ok_elim
    {pool : Pool} {position : Position} {lA uA : TickArray} {d : Int} {ts : Nat}
    {u : ModifyLiquidityUpdate}
    (h : calculate_modify_liquidity pool position lA uA d ts = .ok u) :
    addLiquidityDelta position.liquidity d = .ok u.position_liquidity ∧
    addLiquidityDelta (getTick lA position.tick_lower_index).liquidity_gross d
      = .ok u.tick_array_lower_update.liquidity_gross ∧
    addLiquidityDelta (getTick uA position.tick_upper_index).liquidity_gross d
      = .ok u.tick_array_upper_update.liquidity_gross ∧
    (if in_range pool position then addLiquidityDelta pool.liquidity d
      else .ok pool.liquidity) = .ok u.pool_liquidity ∧
    u.tick_array_lower_update.liquidity_net
      = (getTick lA position.tick_lower_index).liquidity_net + d ∧
    u.tick_array_upper_update.liquidity_net
      = (getTick uA position.tick_upper_index).liquidity_net - d ∧
    u.fee_growth_checkpoint_a = pool.fee_growth_global_a ∧
    u.fee_growth_checkpoint_b = pool.fee_growth_global_b := by
  unfold calculate_modify_liquidity at h
  cases hp : addLiquidityDelta position.liquidity d with
  | error e => rw [hp] at h; simp at h
  | ok np =>
    rw [hp] at h
    dsimp only at h
    cases hl : addLiquidityDelta (getTick lA position.tick_lower_index).liquidity_gross d with
    | error e => rw [hl] at h; simp at h
    | ok ngl =>
      rw [hl] at h
      dsimp only at h
      cases hu : addLiquidityDelta (getTick uA position.tick_upper_index).liquidity_gross d with
      | error e => rw [hu] at h; simp at h
      | ok ngu =>
        rw [hu] at h
        dsimp only at h
        cases hq : (if in_range pool position then addLiquidityDelta pool.liquidity d
            else Except.ok pool.liquidity) with
        | error e => rw [hq] at h; simp at h
        | ok nq =>
          rw [hq] at h
          dsimp only at h
          simp only [Except.ok.injEq] at h
          subst h
          dsimp only
          exact ⟨rfl, rfl, rfl, rfl, rfl, rfl, rfl, rfl⟩

theorem calculate_modify_liquidity_ok_intro
    {pool : Pool} {position : Position} {lA uA : TickArray} {d : Int} (ts : Nat)
    {np ngl ngu nq : Nat}
    (hp : addLiquidityDelta position.liquidity d = .ok np)
    (hl : addLiquidityDelta (getTick lA position.tick_lower_index).liquidity_gross d = .ok ngl)
    (hu : addLiquidityDelta (getTick uA position.tick_upper_index).liquidity_gross d = .ok ngu)
    (hq : (if in_range pool position then addLiquidityDelta pool.liquidity d
           else .ok pool.liquidity) = .ok nq) :
    calculate_modify_liquidity pool position lA uA d ts = .ok
      { position_liquidity := np
      , pool_liquidity := nq
      , fee_growth_checkpoint_a := pool.fee_growth_global_a
      , fee_growth_checkpoint_b := pool.fee_growth_global_b
      , tick_array_lower_update :=
          { getTick lA position.tick_lower_index with
            liquidity_net := (getTick lA position.tick_lower_index).liquidity_net + d
          , liquidity_gross := ngl }
      , tick_array_upper_update :=
          { getTick uA position.tick_upper_index with
            liquidity_net := (getTick uA position.tick_upper_index).liquidity_net - d
          , liquidity_gross := ngu } } := by
  unfold calculate_modify_liquidity
  dsimp only
  rw [hp]
  dsimp only
  rw [hl]
  dsimp only
  rw [hu]
  dsimp only
  rw [hq]

theorem sync_modify_liquidity_values_setTick (pool : Pool) (position : Position)
    (lA uA : TickArray) (u : ModifyLiquidityUpdate) (ts : Nat) :
    sync_modify_liquidity_values pool position
      (setTick lA position.tick_lower_index u.tick_array_lower_update)
      (setTick uA position.tick_upper_index u.tick_array_upper_update) u ts
    = .ok ({ pool with liquidity := u.pool_liquidity },
           { position with
             liquidity := u.position_liquidity
           , fee_growth_checkpoint_a := u.fee_growth_checkpoint_a
           , fee_growth_checkpoint_b := u.fee_growth_checkpoint_b }) := by
  unfold sync_modify_liquidity_values
  rw [getTick_setTick_same, getTick_setTick_same]
  simp

theorem modifyCore_ok_intro
    {pool : Pool} {position : Position} {lA uA : TickArray} {d : Int} {ts : Nat}
    {u : ModifyLiquidityUpdate}
    (hc : calculate_modify_liquidity pool position lA uA d ts = .ok u) :
    modifyCore pool position lA uA d ts = .ok
      ({ pool with liquidity := u.pool_liquidity },
       { position with
         liquidity := u.position_liquidity
       , fee_growth_checkpoint_a := u.fee_growth_checkpoint_a
       , fee_growth_checkpoint_b := u.fee_growth_checkpoint_b },
       setTick lA position.tick_lower_index u.tick_array_lower_update,
       setTick uA position.tick_upper_index u.tick_array_upper_update) := by
  unfold modifyCore
  rw [hc]
  dsimp only [update_tick_array_accounts]
  rw [sync_modify_liquidity_values_setTick]

theorem modifyCore_ok_elim
    {pool : Pool} {position : Position} {lA uA : TickArray} {d : Int} {ts : Nat}
    {pool2 : Pool} {pos2 : Position} {l2 u2 : TickArray}
    (h : modifyCore pool position lA uA d ts = .ok (pool2, pos2, l2, u2)) :
    ∃ u, calculate_modify_liquidity pool position lA uA d ts = .ok u ∧
      l2 = setTick lA position.tick_lower_index u.tick_array_lower_update ∧
      u2 = setTick uA position.tick_upper_index u.tick_array_upper_update ∧
      pool2 = { pool with liquidity := u.pool_liquidity } ∧
      pos2 = { position with
               liquidity := u.position_liquidity
             , fee_growth_checkpoint_a := u.fee_growth_checkpoint_a
             , fee_growth_checkpoint_b := u.fee_growth_checkpoint_b } := by
  cases hc : calculate_modify_liquidity pool position lA uA d ts with
  | error e =>
    unfold modifyCore at h
    rw [hc] at h
    simp at h
  | ok u =>
    have h2 := modifyCore_ok_intro hc
    rw [h2] at h
    simp only [Except.ok.injEq, Prod.mk.injEq] at h
    exact ⟨u, rfl, h.2.2.1.symm, h.2.2.2.symm, h.1.symm, h.2.1.symm⟩

theorem addLiquidityDelta_eq_ok {x y : Nat} {d : Int}
    (hy : (x : Int) + d = (y : Int)) (hb : y < u128Limit) :
    addLiquidityDelta x d = .ok y := by
  unfold addLiquidityDelta
  rw [hy]
  rw [if_neg (by omega), if_neg (by exact_mod_cast not_le.mpr (by exact_mod_cast hb))]
  simp

/-- C1: after a successful modify-liquidity call the pool aggregate
liquidity equals its prior value plus the signed delta exactly when the
current tick lies in [lower, upper), and is unchanged otherwise. -/
theorem C1_pool_liquidity_change_iff_in_range
    {pool : Pool} {position : Position} {lA uA : TickArray} {d : Int} {ts : Nat}
    {pool2 : Pool} {pos2 : Position} {l2 u2 : TickArray}
    (hd : d ≠ 0)
    (h : modifyCore pool position lA uA d ts = .ok (pool2, pos2, l2, u2)) :
    (((pool2.liquidity : Int) = (pool.liquidity : Int) + d) ↔ in_range pool position) ∧
    (¬ in_range pool position → pool2.liquidity = pool.liquidity) := by
  obtain ⟨u, hc, -, -, hpool, -⟩ := modifyCore_ok_elim h
  obtain ⟨-, -, -, hq, -, -, -, -⟩ := calculate_modify_liquidity_ok_elim hc
  subst hpool
  dsimp only
  by_cases hin : in_range pool position
  · rw [if_pos hin] at hq
    have hv := addLiquidityDelta_ok_val hq
    exact ⟨⟨fun _ => hin, fun _ => by omega⟩, fun hno => absurd hin hno⟩
  · rw [if_neg hin] at hq
    simp only [Except.ok.injEq] at hq
    exact ⟨⟨fun heq => absurd (by omega : d = 0) hd, fun hcon => absurd hcon hin⟩,
           fun _ => by omega⟩

/-- C8: removing more liquidity than the position holds aborts the core
pipeline with exactly the `LiquidityUnderflow` error; in this transactional
embedding an error result carries no successor state, so pool, position and
tick storage are left untouched. -/
theorem C8_underflow_aborts_clean
    {pool : Pool} {position : Position} {lA uA : TickArray} {d : Int} {ts : Nat}
    (hneg : (position.liquidity : Int) + d < 0) :
    modifyCore pool position lA uA d ts = .error .LiquidityUnderflow := by
  unfold modifyCore calculate_modify_liquidity
  dsimp only
  rw [addLiquidityDelta_underflow hneg]

/-- Sample empty tick array used by the concrete witnesses. -/
def w1Array : TickArray := { start_tick_index := -8, capacity := 2, ticks := [] }

/-- Sample pool at tick 0 with aggregate liquidity 10. -/
def w1Pool : Pool :=
  { sqrt_price := 1, tick_current_index := 0, liquidity := 10
  , fee_growth_global_a := 0, fee_growth_global_b := 0 }

/-- Sample empty position over the range [-1, 1). -/
def w1Position : Position :=
  { tick_lower_index := -1, tick_upper_index := 1, liquidity := 0
  , fee_growth_checkpoint_a := 0, fee_growth_checkpoint_b := 0 }

/-- Tick arrays after the sample deposit of 4 over the range [-1, 1). -/
def w1LowerAfter : TickArray :=
  { start_tick_index := -8, capacity := 2
  , ticks := [(-1, { liquidity_net := 4, liquidity_gross := 4
                   , fee_growth_outside_a := 0, fee_growth_outside_b := 0 })] }

/-- Upper tick array after the sample deposit of 4 over the range [-1, 1). -/
def w1UpperAfter : TickArray :=
  { start_tick_index := -8, capacity := 2
  , ticks := [(1, { liquidity_net := -4, liquidity_gross := 4
                  , fee_growth_outside_a := 0, fee_growth_outside_b := 0 })] }

/-- C1 witness: a concrete in-range deposit of 4 raises the pool aggregate
liquidity from 10 to 14. -/
theorem C1_witness :
    (4 : Int) ≠ 0 ∧
    (((({ w1Pool with liquidity := 14 } : Pool).liquidity : Int)
        = (w1Pool.liquidity : Int) + 4) ↔ in_range w1Pool w1Position) ∧
    (¬ in_range w1Pool w1Position
      → ({ w1Pool with liquidity := 14 } : Pool).liquidity = w1Pool.liquidity) :=
  ⟨by decide,
   C1_pool_liquidity_change_iff_in_range (by decide)
     (show modifyCore w1Pool w1Position w1Array w1Array 4 7
        = .ok ({ w1Pool with liquidity := 14 },
               { w1Position with liquidity := 4 },
               w1LowerAfter, w1UpperAfter)
      from by with_unfolding_all rfl)⟩

/-- C6: an increase by L followed by a decrease by L on the same position
restores the position liquidity and both boundary ticks net and gross
liquidity to their values before the pair of operations. -/
theorem C6_round_trip
    {pool : Pool} {position : Position} {lA uA : TickArray} {L : Nat}
    {dP dM : Int} {ts ts2 : Nat}
    {pool1 : Pool} {pos1 : Position} {l1 u1 : TickArray}
    (hL : L ≠ 0)
    (hdP : convert_to_liquidity_delta L true = .ok dP)
    (hdM : convert_to_liquidity_delta L false = .ok dM)
    (h1 : modifyCore pool position lA uA dP ts = .ok (pool1, pos1, l1, u1)) :
    ∃ pool2 pos2 l2 u2,
      modifyCore pool1 pos1 l1 u1 dM ts2 = .ok (pool2, pos2, l2, u2) ∧
      pos2.liquidity = position.liquidity ∧
      (getTick l2 position.tick_lower_index).liquidity_net
        = (getTick lA position.tick_lower_index).liquidity_net ∧
      (getTick l2 position.tick_lower_index).liquidity_gross
        = (getTick lA position.tick_lower_index).liquidity_gross ∧
      (getTick u2 position.tick_upper_index).liquidity_net
        = (getTick uA position.tick_upper_index).liquidity_net ∧
      (getTick u2 position.tick_upper_index).liquidity_gross
        = (getTick uA position.tick_upper_index).liquidity_gross := by
  rw [convert_to_liquidity_delta_true hL] at hdP
  rw [convert_to_liquidity_delta_false hL] at hdM
  simp only [Except.ok.injEq] at hdP hdM
  subst hdP
  subst hdM
  obtain ⟨u, hc, hl1, hu1, hp1, hq1⟩ := modifyCore_ok_elim h1
  obtain ⟨cp, cgl, cgu, cq, cnl, cnu, -, -⟩ := calculate_modify_liquidity_ok_elim hc
  subst hl1
  subst hu1
  subst hp1
  subst hq1
  have hvp := addLiquidityDelta_ok_val cp
  have hbp := addLiquidityDelta_ok_bounds cp
  have hvl := addLiquidityDelta_ok_val cgl
  have hbl := addLiquidityDelta_ok_bounds cgl
  have hvu := addLiquidityDelta_ok_val cgu
  have hbu := addLiquidityDelta_ok_bounds cgu
  -- the four checked adjustments of the decrease all succeed
  have hp2 : addLiquidityDelta
      ({ position with
         liquidity := u.position_liquidity
       , fee_growth_checkpoint_a := u.fee_growth_checkpoint_a
       , fee_growth_checkpoint_b := u.fee_growth_checkpoint_b } : Position).liquidity
      (-(L : Int)) = .ok position.liquidity := by
    apply addLiquidityDelta_eq_ok
    · dsimp only
      omega
    · omega
  have hl2 : addLiquidityDelta
      (getTick (setTick lA position.tick_lower_index u.tick_array_lower_update)
        position.tick_lower_index).liquidity_gross (-(L : Int))
      = .ok (getTick lA position.tick_lower_index).liquidity_gross := by
    rw [getTick_setTick_same]
    exact addLiquidityDelta_eq_ok (by omega) (by omega)
  have hu2 : addLiquidityDelta
      (getTick (setTick uA position.tick_upper_index u.tick_array_upper_update)
        position.tick_upper_index).liquidity_gross (-(L : Int))
      = .ok (getTick uA position.tick_upper_index).liquidity_gross := by
    rw [getTick_setTick_same]
    exact addLiquidityDelta_eq_ok (by omega) (by omega)
  have hq2 : (if in_range { pool with liquidity := u.pool_liquidity }
        ({ position with
           liquidity := u.position_liquidity
         , fee_growth_checkpoint_a := u.fee_growth_checkpoint_a
         , fee_growth_checkpoint_b := u.fee_growth_checkpoint_b } : Position)
      then addLiquidityDelta
        ({ pool with liquidity := u.pool_liquidity } : Pool).liquidity (-(L : Int))
      else .ok ({ pool with liquidity := u.pool_liquidity } : Pool).liquidity)
      = .ok pool.liquidity := by
    show (if in_range pool position
        then addLiquidityDelta u.pool_liquidity (-(L : Int))
        else .ok u.pool_liquidity) = .ok pool.liquidity
    by_cases hin : in_range pool position
    · rw [if_pos hin]
      rw [if_pos hin] at cq
      have hvq := addLiquidityDelta_ok_val cq
      have hbq := addLiquidityDelta_ok_bounds cq
      exact addLiquidityDelta_eq_ok (by omega) (by omega)
    · rw [if_neg hin]
      rw [if_neg hin] at cq
      simp only [Except.ok.injEq] at cq
      rw [cq]
  have hc2 := calculate_modify_liquidity_ok_intro ts2 hp2 hl2 hu2 hq2
  have hm2 := modifyCore_ok_intro hc2
  refine ⟨_, _, _, _, hm2, ?_, ?_, ?_, ?_, ?_⟩
  · rfl
  · dsimp only
    rw [getTick_setTick_same, getTick_setTick_same]
    dsimp only
    omega
  · dsimp only
    rw [getTick_setTick_same]
  · dsimp only
    rw [getTick_setTick_same, getTick_setTick_same]
    dsimp only
    omega
  · dsimp only
    rw [getTick_setTick_same]

/-- C6 witness: the concrete deposit of 4 followed by a withdrawal of 4
restores position liquidity 0 and both boundary tick records. -/
theorem C6_witness :
    (4 : Nat) ≠ 0 ∧
    convert_to_liquidity_delta 4 true = .ok 4 ∧
    convert_to_liquidity_delta 4 false = .ok (-4) ∧
    modifyCore w1Pool w1Position w1Array w1Array 4 7
      = .ok ({ w1Pool with liquidity := 14 }, { w1Position with liquidity := 4 },
             w1LowerAfter, w1UpperAfter) ∧
    (∃ pool2 pos2 l2 u2,
      modifyCore { w1Pool with liquidity := 14 } { w1Position with liquidity := 4 }
          w1LowerAfter w1UpperAfter (-4) 9 = .ok (pool2, pos2, l2, u2) ∧
      pos2.liquidity = w1Position.liquidity ∧
      (getTick l2 w1Position.tick_lower_index).liquidity_net
        = (getTick w1Array w1Position.tick_lower_index).liquidity_net ∧
      (getTick l2 w1Position.tick_lower_index).liquidity_gross
        = (getTick w1Array w1Position.tick_lower_index).liquidity_gross ∧
      (getTick u2 w1Position.tick_upper_index).liquidity_net
        = (getTick w1Array w1Position.tick_upper_index).liquidity_net ∧
      (getTick u2 w1Position.tick_upper_index).liquidity_gross
        = (getTick w1Array w1Position.tick_upper_index).liquidity_gross) :=
  ⟨by decide, by with_unfolding_all rfl, by with_unfolding_all rfl,
   by with_unfolding_all rfl,
   @C6_round_trip w1Pool w1Position w1Array w1Array 4 4 (-4) 7 9
     { w1Pool with liquidity := 14 } { w1Position with liquidity := 4 }
     w1LowerAfter w1UpperAfter (by decide) (by with_unfolding_all rfl)
     (by with_unfolding_all rfl) (by with_unfolding_all rfl)⟩

/-- C8 witness: removing 6 units from a position holding 5 fails with
`LiquidityUnderflow` at a concrete input. -/
theorem C8_witness :
    ((({ w1Position with liquidity := 5 } : Position).liquidity : Int) + (-6) < 0) ∧
    modifyCore w1Pool { w1Position with liquidity := 5 } w1Array w1Array (-6) 7
      = .error .LiquidityUnderflow :=
  ⟨by decide, C8_underflow_aborts_clean (by decide)⟩

theorem toU64_ok_val {x : Int} {n : Nat} (h : toU64 x = .ok n) : (n : Int) = x := by
  unfold toU64 at h
  split at h
  · exact absurd h (by simp)
  · split at h
    · exact absurd h (by simp)
    · simp only [Except.ok.injEq] at h
      subst h
      omega

/-- C4: every computed token amount pair is the ceiling of the exact
rational curve amounts for a deposit (positive delta) and the floor for a
withdrawal (negative delta). -/
theorem C4_deposit_ceil_withdraw_floor
    {tick_current_index : Int} {sqrt_price : ℚ} {position : Position}
    {liquidity_delta : Int} {a b : Nat}
    (h : calculate_liquidity_token_deltas tick_current_index sqrt_price position
          liquidity_delta = .ok (a, b)) :
    (0 < liquidity_delta →
      (a : Int) = ⌈exactAmountA tick_current_index sqrt_price position
                    (liquidity_delta.natAbs : ℚ)⌉ ∧
      (b : Int) = ⌈exactAmountB tick_current_index sqrt_price position
                    (liquidity_delta.natAbs : ℚ)⌉) ∧
    (liquidity_delta < 0 →
      (a : Int) = ⌊exactAmountA tick_current_index sqrt_price position
                    (liquidity_delta.natAbs : ℚ)⌋ ∧
      (b : Int) = ⌊exactAmountB tick_current_index sqrt_price position
                    (liquidity_delta.natAbs : ℚ)⌋) := by
  unfold calculate_liquidity_token_deltas at h
  dsimp only at h
  by_cases hpos : 0 < liquidity_delta
  · simp only [if_pos hpos] at h
    cases ha : toU64 (ratCeil (exactAmountA tick_current_index sqrt_price position
        (liquidity_delta.natAbs : ℚ))) with
    | error e => rw [ha] at h; simp at h
    | ok a0 =>
      rw [ha] at h
      dsimp only at h
      cases hb : toU64 (ratCeil (exactAmountB tick_current_index sqrt_price position
          (liquidity_delta.natAbs : ℚ))) with
      | error e => rw [hb] at h; simp at h
      | ok b0 =>
        rw [hb] at h
        dsimp only at h
        simp only [Except.ok.injEq, Prod.mk.injEq] at h
        obtain ⟨ha0, hb0⟩ := h
        subst ha0
        subst hb0
        refine ⟨fun _ => ⟨?_, ?_⟩, fun hneg => absurd hneg (by omega)⟩
        · rw [← ratCeil_eq]; exact toU64_ok_val ha
        · rw [← ratCeil_eq]; exact toU64_ok_val hb
  · simp only [if_neg hpos] at h
    cases ha : toU64 (ratFloor (exactAmountA tick_current_index sqrt_price position
        (liquidity_delta.natAbs : ℚ))) with
    | error e => rw [ha] at h; simp at h
    | ok a0 =>
      rw [ha] at h
      dsimp only at h
      cases hb : toU64 (ratFloor (exactAmountB tick_current_index sqrt_price position
          (liquidity_delta.natAbs : ℚ))) with
      | error e => rw [hb] at h; simp at h
      | ok b0 =>
        rw [hb] at h
        dsimp only at h
        simp only [Except.ok.injEq, Prod.mk.injEq] at h
        obtain ⟨ha0, hb0⟩ := h
        subst ha0
        subst hb0
        refine ⟨fun hp => absurd hp hpos, fun _ => ⟨?_, ?_⟩⟩
        · rw [← ratFloor_eq]; exact toU64_ok_val ha
        · rw [← ratFloor_eq]; exact toU64_ok_val hb

/-- C4 witness: at tick 0 inside the range [-1, 1) with unit sqrt price,
depositing 3 units owes the ceiling of 3/2 in both assets, and withdrawing
3 returns the floor of 3/2 in both. -/
theorem C4_witness :
    calculate_liquidity_token_deltas 0 1 w1Position 3 = .ok (2, 2) ∧
    ((0 < (3 : Int) →
      ((2 : Nat) : Int) = ⌈exactAmountA 0 1 w1Position (((3 : Int)).natAbs : ℚ)⌉ ∧
      ((2 : Nat) : Int) = ⌈exactAmountB 0 1 w1Position (((3 : Int)).natAbs : ℚ)⌉) ∧
     ((3 : Int) < 0 →
      ((2 : Nat) : Int) = ⌊exactAmountA 0 1 w1Position (((3 : Int)).natAbs : ℚ)⌋ ∧
      ((2 : Nat) : Int) = ⌊exactAmountB 0 1 w1Position (((3 : Int)).natAbs : ℚ)⌋)) :=
  ⟨by with_unfolding_all rfl,
   C4_deposit_ceil_withdraw_floor (by with_unfolding_all rfl)⟩

theorem handler_eq_staged (s : ProgramState) (la ta tb : Nat) :
    handler s la ta tb = stagedHandler s la ta tb := by
  unfold handler stagedHandler readPass writePass
  cases hv : verify_position_authority_interface s.position_authority_valid with
  | error e => rfl
  | ok v =>
    dsimp only
    by_cases hla : la = 0
    · simp only [if_pos hla]
    · simp only [if_neg hla]
      cases hd : convert_to_liquidity_delta la true with
      | error e => rfl
      | ok d =>
        dsimp only
        cases ht : to_timestamp_u64 s.unix_timestamp with
        | error e => rfl
        | ok ts =>
          dsimp only
          cases hc : calculate_modify_liquidity s.pool s.position s.tick_array_lower
              s.tick_array_upper d ts with
          | error e => rfl
          | ok u =>
            dsimp only
            cases hup : update_tick_array_accounts s.position s.tick_array_lower
                s.tick_array_upper u.tick_array_lower_update u.tick_array_upper_update with
            | error e => rfl
            | ok p =>
              obtain ⟨l2, u2⟩ := p
              dsimp only
              cases hs : sync_modify_liquidity_values s.pool s.position l2 u2 u ts with
              | error e => rfl
              | ok q =>
                obtain ⟨pool2, pos2⟩ := q
                dsimp only
                cases hdel : calculate_liquidity_token_deltas pool2.tick_current_index
                    pool2.sqrt_price pos2 d with
                | error e => rfl
                | ok ab =>
                  obtain ⟨da, db⟩ := ab
                  dsimp only
                  by_cases hslip : ta < da ∨ tb < db
                  · simp only [if_pos hslip]
                  · simp only [if_neg hslip]
                    cases hta : transfer_from_owner_to_vault s.owner_balance_a
                        s.vault_balance_a da with
                    | error e => rfl
                    | ok pa =>
                      obtain ⟨oa, va⟩ := pa
                      dsimp only
                      cases htb : transfer_from_owner_to_vault s.owner_balance_b
                          s.vault_balance_b db with
                      | error e => rfl
                      | ok pb =>
                        obtain ⟨ob, vb⟩ := pb
                        rfl

theorem readPass_ok_elim {s : ProgramState} {la : Nat} {d : Int} {ts0 : Nat}
    {u : ModifyLiquidityUpdate} (h : readPass s la = .ok (d, ts0, u)) :
    la ≠ 0 ∧ d = (la : Int) ∧
    calculate_modify_liquidity s.pool s.position s.tick_array_lower
      s.tick_array_upper d ts0 = .ok u := by
  unfold readPass at h
  cases hv : verify_position_authority_interface s.position_authority_valid with
  | error e => rw [hv] at h; simp at h
  | ok v =>
    rw [hv] at h
    dsimp only at h
    by_cases hla : la = 0
    · rw [if_pos hla] at h; simp at h
    · rw [if_neg hla] at h
      rw [convert_to_liquidity_delta_true hla] at h
      dsimp only at h
      cases ht : to_timestamp_u64 s.unix_timestamp with
      | error e => rw [ht] at h; simp at h
      | ok ts1 =>
        rw [ht] at h
        dsimp only at h
        cases hc : calculate_modify_liquidity s.pool s.position s.tick_array_lower
            s.tick_array_upper (la : Int) ts1 with
        | error e => rw [hc] at h; simp at h
        | ok u1 =>
          rw [hc] at h
          dsimp only at h
          simp only [Except.ok.injEq, Prod.mk.injEq] at h
          obtain ⟨hd, hts, hu⟩ := h
          subst hd
          subst hts
          subst hu
          exact ⟨hla, rfl, hc⟩

theorem sync_ok_elim {pool : Pool} {position : Position} {l2 u2 : TickArray}
    {u : ModifyLiquidityUpdate} {ts0 : Nat} {pool2 : Pool} {pos2 : Position}
    (h : sync_modify_liquidity_values pool position l2 u2 u ts0 = .ok (pool2, pos2)) :
    pool2 = { pool with liquidity := u.pool_liquidity } ∧
    pos2 = { position with
             liquidity := u.position_liquidity
           , fee_growth_checkpoint_a := u.fee_growth_checkpoint_a
           , fee_growth_checkpoint_b := u.fee_growth_checkpoint_b } := by
  unfold sync_modify_liquidity_values at h
  split at h
  · exact absurd h (by simp)
  · simp only [Except.ok.injEq, Prod.mk.injEq] at h
    exact ⟨h.1.symm, h.2.symm⟩

theorem writePass_ok_elim {pool : Pool} {position : Position} {l2 u2 : TickArray}
    {u : ModifyLiquidityUpdate} {ts0 : Nat} {d : Int} {ta tb : Nat}
    {oa0 va0 ob0 vb0 : Nat}
    {out : Pool × Position × TickArray × TickArray × Nat × Nat × Nat × Nat}
    (h : writePass pool position l2 u2 u ts0 d ta tb oa0 va0 ob0 vb0 = .ok out) :
    out.2.1.liquidity = u.position_liquidity := by
  unfold writePass at h
  cases hs : sync_modify_liquidity_values pool position l2 u2 u ts0 with
  | error e => rw [hs] at h; simp at h
  | ok q =>
    obtain ⟨pool2, pos2⟩ := q
    obtain ⟨-, hq⟩ := sync_ok_elim hs
    rw [hs] at h
    dsimp only at h
    cases hdel : calculate_liquidity_token_deltas pool2.tick_current_index
        pool2.sqrt_price pos2 d with
    | error e => rw [hdel] at h; simp at h
    | ok ab =>
      obtain ⟨da, db⟩ := ab
      rw [hdel] at h
      dsimp only at h
      by_cases hslip : ta < da ∨ tb < db
      · rw [if_pos hslip] at h; simp at h
      · rw [if_neg hslip] at h
        cases hta : transfer_from_owner_to_vault oa0 va0 da with
        | error e => rw [hta] at h; simp at h
        | ok pa =>
          obtain ⟨oa, va⟩ := pa
          rw [hta] at h
          dsimp only at h
          cases htb : transfer_from_owner_to_vault ob0 vb0 db with
          | error e => rw [htb] at h; simp at h
          | ok pb =>
            obtain ⟨ob, vb⟩ := pb
            rw [htb] at h
            dsimp only at h
            simp only [Except.ok.injEq] at h
            subst h
            rw [hq]

theorem handler_ok_position_increase {s : ProgramState} {la ta tb : Nat}
    {s2 : ProgramState} (h : handler s la ta tb = .ok s2) :
    la ≠ 0 ∧ (s2.position.liquidity : Int) = (s.position.liquidity : Int) + la := by
  rw [handler_eq_staged] at h
  unfold stagedHandler at h
  cases hr : readPass s la with
  | error e => rw [hr] at h; simp at h
  | ok t =>
    obtain ⟨d, ts0, u⟩ := t
    obtain ⟨hla, hd, hc⟩ := readPass_ok_elim hr
    subst hd
    obtain ⟨cp, -, -, -, -, -, -, -⟩ := calculate_modify_liquidity_ok_elim hc
    have hval := addLiquidityDelta_ok_val cp
    rw [hr] at h
    dsimp only at h
    cases hup : update_tick_array_accounts s.position s.tick_array_lower
        s.tick_array_upper u.tick_array_lower_update u.tick_array_upper_update with
    | error e => rw [hup] at h; simp at h
    | ok p =>
      obtain ⟨l2, u2⟩ := p
      rw [hup] at h
      dsimp only at h
      cases hw : writePass s.pool s.position l2 u2 u ts0 (la : Int) ta tb
          s.owner_balance_a s.vault_balance_a s.owner_balance_b s.vault_balance_b with
      | error e => rw [hw] at h; simp at h
      | ok out =>
        obtain ⟨p2, q2, l2b, u2b, oa, va, ob, vb⟩ := out
        have hq2 := writePass_ok_elim hw
        rw [hw] at h
        dsimp only at h
        simp only [Except.ok.injEq] at h
        subst h
        dsimp only at hq2 ⊢
        omega

/-- C5: in every modify-liquidity call the tick array storage consumed by
the write pass is exactly the storage re-obtained after the Tick Array
Storage Updater resize: the handler equals the staged pipeline in which
`writePass` receives only the resized arrays, and the pre-resize arrays are
not in scope of the write pass at all, so no reference obtained before the
resize is used after it. -/
theorem C5_write_pass_uses_reloaded_storage (s : ProgramState) (la ta tb : Nat) :
    handler s la ta tb = stagedHandler s la ta tb :=
  handler_eq_staged s la ta tb

/-- C2 amended: when either computed token amount exceeds its declared
maximum the handler fails with `TokenMaxExceeded` (the code name of the
slippage error; the spec calls it `SlippageExceeded`), and the failure is
decided strictly before the two settlement transfers run, so no value moves
on that path. -/
theorem C2_slippage_gate_before_transfers
    {s : ProgramState} {la ta tb : Nat} {d : Int} {ts0 : Nat}
    {u : ModifyLiquidityUpdate} {l2 u2 : TickArray} {pool2 : Pool}
    {pos2 : Position} {da db : Nat}
    (h1 : readPass s la = .ok (d, ts0, u))
    (h2 : update_tick_array_accounts s.position s.tick_array_lower
          s.tick_array_upper u.tick_array_lower_update u.tick_array_upper_update
          = .ok (l2, u2))
    (h3 : sync_modify_liquidity_values s.pool s.position l2 u2 u ts0
          = .ok (pool2, pos2))
    (h4 : calculate_liquidity_token_deltas pool2.tick_current_index
          pool2.sqrt_price pos2 d = .ok (da, db))
    (h5 : ta < da ∨ tb < db) :
    handler s la ta tb = .error .TokenMaxExceeded := by
  rw [handler_eq_staged]
  unfold stagedHandler
  rw [h1]
  dsimp only
  rw [h2]
  dsimp only
  unfold writePass
  rw [h3]
  dsimp only
  rw [h4]
  dsimp only
  rw [if_pos h5]

/-- C3 amended: a zero liquidity amount is rejected with the code error
`LiquidityZero` (the spec calls it `InvalidInput`), after the authority
check but before any tick array is loaded, any liquidity is computed, or
any transfer runs. -/
theorem C3_zero_amount_rejected_early (s : ProgramState) (ta tb : Nat)
    (h : s.position_authority_valid = true) :
    handler s 0 ta tb = .error .LiquidityZero := by
  unfold handler verify_position_authority_interface
  rw [h]
  rfl

/-- C9: the position-authority check is the first gate of the handler: if
it fails, the call returns `InvalidPositionAuthority` for every input,
including a zero liquidity amount that would otherwise trip the zero-amount
check, and no computation or storage access happens. -/
theorem C9_authority_checked_first (s : ProgramState) (la ta tb : Nat)
    (h : s.position_authority_valid = false) :
    handler s la ta tb = .error .InvalidPositionAuthority := by
  unfold handler verify_position_authority_interface
  rw [h]
  rfl

/-- C7 counterexample: the claim that a caller-supplied `is_increase` flag
selects between add and remove is false of the code: the handler surface
admits no removal at all — no call can ever decrease position liquidity. -/
theorem C7_counterexample :
    ¬ ∃ (s : ProgramState) (la ta tb : Nat) (s2 : ProgramState),
        handler s la ta tb = .ok s2 ∧
        s2.position.liquidity < s.position.liquidity := by
  rintro ⟨s, la, ta, tb, s2, h, hlt⟩
  obtain ⟨hla, hv⟩ := handler_ok_position_increase h
  omega

/-- C7 amended: the handler takes only (liquidity_amount, token_max_a,
token_max_b), hardcodes the direction flag to `true` at source line 48, and
therefore every successful call adds exactly the liquidity amount to the
position. -/
theorem C7_direction_hardcoded_increase {s : ProgramState} {la ta tb : Nat}
    {s2 : ProgramState} (h : handler s la ta tb = .ok s2) :
    0 < la ∧ (s2.position.liquidity : Int) = (s.position.liquidity : Int) + la := by
  obtain ⟨hla, hv⟩ := handler_ok_position_increase h
  exact ⟨Nat.pos_of_ne_zero hla, hv⟩

/-- C10: a hello_anchor message that is empty after trimming Rust
whitespace (including non-empty all-whitespace strings) is rejected with
`EmptyHelloAnchorMessage`; the error return carries no written account and
no emitted event. -/
theorem C10_empty_message_rejected (signer_key : Nat) (message : String)
    (timestamp : Int) (h : (rustTrim message).isEmpty = true) :
    hello_anchor_handler signer_key message timestamp
      = .error .EmptyHelloAnchorMessage := by
  unfold hello_anchor_handler
  rw [if_pos h]

/-- Sample pool sitting below the range [0, 1): all value moves in asset A. -/
def wPool : Pool :=
  { sqrt_price := 1, tick_current_index := -3, liquidity := 0
  , fee_growth_global_a := 0, fee_growth_global_b := 0 }

/-- Sample empty position over the range [0, 1). -/
def wPosition : Position :=
  { tick_lower_index := 0, tick_upper_index := 1, liquidity := 0
  , fee_growth_checkpoint_a := 0, fee_growth_checkpoint_b := 0 }

/-- Sample full instruction state for the handler witnesses. -/
def wState : ProgramState :=
  { pool := wPool, position := wPosition
  , tick_array_lower := w1Array, tick_array_upper := w1Array
  , position_authority_valid := true
  , owner_balance_a := 100, owner_balance_b := 100
  , vault_balance_a := 5, vault_balance_b := 5
  , unix_timestamp := 1000 }

/-- Update descriptor the read pass computes for a deposit of 4 into
`wState`. -/
def wDescriptor : ModifyLiquidityUpdate :=
  { position_liquidity := 4, pool_liquidity := 0
  , fee_growth_checkpoint_a := 0, fee_growth_checkpoint_b := 0
  , tick_array_lower_update :=
      { liquidity_net := 4, liquidity_gross := 4
      , fee_growth_outside_a := 0, fee_growth_outside_b := 0 }
  , tick_array_upper_update :=
      { liquidity_net := -4, liquidity_gross := 4
      , fee_growth_outside_a := 0, fee_growth_outside_b := 0 } }

/-- Lower tick array of `wState` after the deposit of 4. -/
def wLowerAfter : TickArray :=
  { start_tick_index := -8, capacity := 2
  , ticks := [(0, { liquidity_net := 4, liquidity_gross := 4
                  , fee_growth_outside_a := 0, fee_growth_outside_b := 0 })] }

/-- C2 counterexample: at a concrete input whose computed asset A amount 2
exceeds the declared maximum 1, the handler fails with the code error
`TokenMaxExceeded`, which is not the `SlippageExceeded` kind the claim
names. -/
theorem C2_counterexample :
    handler wState 4 1 99 = .error .TokenMaxExceeded ∧
    ErrorCode.TokenMaxExceeded ≠ ErrorCode.SlippageExceeded :=
  ⟨by with_unfolding_all rfl, by decide⟩

/-- C2 witness: the slippage gate theorem applied at the concrete input of
the counterexample. -/
theorem C2_witness :
    readPass wState 4 = .ok (4, 1000, wDescriptor) ∧
    update_tick_array_accounts wState.position wState.tick_array_lower
      wState.tick_array_upper wDescriptor.tick_array_lower_update
      wDescriptor.tick_array_upper_update = .ok (wLowerAfter, w1UpperAfter) ∧
    sync_modify_liquidity_values wState.pool wState.position wLowerAfter
      w1UpperAfter wDescriptor 1000 = .ok (wPool, { wPosition with liquidity := 4 }) ∧
    calculate_liquidity_token_deltas wPool.tick_current_index wPool.sqrt_price
      { wPosition with liquidity := 4 } 4 = .ok (2, 0) ∧
    ((1 : Nat) < 2 ∨ (99 : Nat) < 0) ∧
    handler wState 4 1 99 = .error .TokenMaxExceeded :=
  ⟨by with_unfolding_all rfl, by with_unfolding_all rfl, by with_unfolding_all rfl,
   by with_unfolding_all rfl, by decide,
   @C2_slippage_gate_before_transfers wState 4 1 99 4 1000 wDescriptor
     wLowerAfter w1UpperAfter wPool { wPosition with liquidity := 4 } 2 0
     (by with_unfolding_all rfl) (by with_unfolding_all rfl)
     (by with_unfolding_all rfl) (by with_unfolding_all rfl) (by decide)⟩

/-- C3 counterexample: a zero amount is rejected with the code error
`LiquidityZero`, which is not the `InvalidInput` kind the claim names. -/
theorem C3_counterexample :
    handler wState 0 5 5 = .error .LiquidityZero ∧
    ErrorCode.LiquidityZero ≠ ErrorCode.InvalidInput :=
  ⟨by with_unfolding_all rfl, by decide⟩

/-- C3 witness: the early zero-amount rejection applied at a concrete
authorized state. -/
theorem C3_witness :
    wState.position_authority_valid = true ∧
    handler wState 0 5 5 = .error .LiquidityZero :=
  ⟨rfl, C3_zero_amount_rejected_early wState 5 5 rfl⟩

/-- C9 witness: with an invalid authority and a zero amount the handler
reports `InvalidPositionAuthority`, not `LiquidityZero`: the authority gate
runs first. -/
theorem C9_witness :
    ({ wState with position_authority_valid := false } :
        ProgramState).position_authority_valid = false ∧
    handler { wState with position_authority_valid := false } 0 5 5
      = .error .InvalidPositionAuthority :=
  ⟨rfl, C9_authority_checked_first { wState with position_authority_valid := false }
    0 5 5 rfl⟩

/-- State after the successful deposit of 4 into `wState` with generous
slippage bounds. -/
def wStateAfter : ProgramState :=
  { wState with
    position := { wPosition with liquidity := 4 }
  , tick_array_lower := wLowerAfter
  , tick_array_upper := w1UpperAfter
  , owner_balance_a := 98
  , vault_balance_a := 7 }

/-- C7 witness: a concrete successful call deposits exactly the requested 4
units into the position. -/
theorem C7_witness :
    handler wState 4 10 10 = .ok wStateAfter ∧
    (0 < 4 ∧
      ((wStateAfter.position.liquidity : Int) = (wState.position.liquidity : Int) + 4)) :=
  ⟨by with_unfolding_all rfl,
   @C7_direction_hardcoded_increase wState 4 10 10 wStateAfter
     (by with_unfolding_all rfl)⟩

/-- C10 witness: the all-whitespace message " \t " is rejected with
`EmptyHelloAnchorMessage`. -/
theorem C10_witness :
    (rustTrim " \t ").isEmpty = true ∧
    hello_anchor_handler 7 " \t " 123 = .error .EmptyHelloAnchorMessage :=
  ⟨by decide, C10_empty_message_rejected 7 " \t " 123 (by decide)⟩
